import Mathlib

/-
Verification of the homelab layered-architecture backup system.

The Python sources under code/management/python are shallowly embedded:
every external command (zfs, borg, docker compose, unlink) is a field of a
"world" structure, returning an exit code (0 = success) and possibly a new
world state; the Python methods become Lean functions over such worlds,
returning the new state together with an `Except PyError` result that
mirrors the exceptions the Python code raises (`sh.ErrorReturnCode`,
`FileExistsError`, `RuntimeError`).
-/

namespace HomelabBackup

/-- The exceptions the Python code raises or propagates:
`sh.ErrorReturnCode` (a wrapped command exited non-zero), `FileExistsError`
(snapshot already exists), `RuntimeError` (post-condition verification
failed / no datasets found). -/
inductive PyError where
  | errorReturnCode (exitCode : Nat)
  | fileExistsError (name : String)
  | runtimeError (msg : String)
deriving DecidableEq, Repr

/-! ## ZFSManager (zfs_manager.py)

The zfs command-line tool is a world: existence queries return an exit
code (0 = found, 1 = not found, anything else = genuine error), mutating
commands transform the state and return an exit code. -/

structure ZfsWorld (σ : Type) where
  /-- exit code of `zfs list -H -t filesystem NAME` (read-only query). -/
  queryDataset : σ → String → Nat
  /-- exit code of `zfs list -H -t snapshot NAME` (read-only query). -/
  querySnap : σ → String → Nat
  /-- `zfs snapshot [-r] NAME`: new state and exit code. -/
  snapshotCmd : σ → String → Bool → σ × Nat
  /-- `zfs destroy [-r] NAME`: new state and exit code. -/
  destroyCmd : σ → String → Bool → σ × Nat

/-- `f"{self.parent_dataset}/{dataset_name}" if dataset_name else self.parent_dataset`. -/
def targetDataset (parent : String) (dsName : Option String) : String :=
  match dsName with
  | some d => parent ++ "/" ++ d
  | none => parent

/-- `ZFSManager.dataset_exists`: exit 0 means the dataset exists, exit 1
means it does not (a normal outcome), any other exit re-raises. -/
def dataset_exists (w : ZfsWorld σ) (parent : String) (dsName : Option String)
    (s : σ) : Except PyError Bool :=
  let code := w.queryDataset s (targetDataset parent dsName)
  if code = 0 then .ok true
  else if code = 1 then .ok false
  else .error (.errorReturnCode code)

/-- `ZFSManager._snapshot_exists`: same exit-code interpretation as
`dataset_exists`, against a full `dataset@tag` snapshot name. -/
def snapshot_exists (w : ZfsWorld σ) (s : σ) (fullSnapshotName : String) :
    Except PyError Bool :=
  let code := w.querySnap s fullSnapshotName
  if code = 0 then .ok true
  else if code = 1 then .ok false
  else .error (.errorReturnCode code)

/-- `if not tag: tag = f"auto-{timestamp}"` — None or an empty tag is
replaced by a timestamp-derived one. -/
def effectiveTag (tagOpt : Option String) (now : String) : String :=
  match tagOpt with
  | some t => if t = "" then "auto-" ++ now else t
  | none => "auto-" ++ now

/-- `ZFSManager.create_snapshot`: raises `FileExistsError` if the snapshot
already exists, otherwise runs `zfs snapshot [-r]`, re-checks existence and
raises `RuntimeError` if the snapshot is still absent; returns the full
snapshot name on success. -/
def create_snapshot (w : ZfsWorld σ) (parent : String) (tagOpt : Option String)
    (dsName : Option String) (recursive : Bool) (now : String) (s : σ) :
    σ × Except PyError String :=
  let tag := effectiveTag tagOpt now
  let full := targetDataset parent dsName ++ "@" ++ tag
  match snapshot_exists w s full with
  | .error e => (s, .error e)
  | .ok true => (s, .error (.fileExistsError full))
  | .ok false =>
    match w.snapshotCmd s full recursive with
    | (s1, code) =>
      if code = 0 then
        match snapshot_exists w s1 full with
        | .error e => (s1, .error e)
        | .ok false => (s1, .error (.runtimeError ("Verification failed! Snapshot was not found after creation: " ++ full)))
        | .ok true => (s1, .ok full)
      else (s1, .error (.errorReturnCode code))

/-- `ZFSManager.destroy_snapshot`: a no-op when the snapshot does not
exist; otherwise runs `zfs destroy [-r]`, re-checks and raises
`RuntimeError` if the snapshot is still present. -/
def destroy_snapshot (w : ZfsWorld σ) (parent tag : String)
    (dsName : Option String) (recursive : Bool) (s : σ) :
    σ × Except PyError Unit :=
  let full := targetDataset parent dsName ++ "@" ++ tag
  match snapshot_exists w s full with
  | .error e => (s, .error e)
  | .ok false => (s, .ok ())
  | .ok true =>
    match w.destroyCmd s full recursive with
    | (s1, code) =>
      if code = 0 then
        match snapshot_exists w s1 full with
        | .error e => (s1, .error e)
        | .ok true => (s1, .error (.runtimeError ("Verification failed! Snapshot still exists after destruction: " ++ full)))
        | .ok false => (s1, .ok ())
      else (s1, .error (.errorReturnCode code))

/-- A faithful zfs world over a plain list of existing snapshot names:
queries answer by membership (0 = found, 1 = not found), `zfs snapshot`
records the name, `zfs destroy` removes it. -/
def faithfulZfs : ZfsWorld (List String) where
  queryDataset _ _ := 0
  querySnap s n := if n ∈ s then 0 else 1
  snapshotCmd s n _ := (n :: s, 0)
  destroyCmd s n _ := (s.filter (fun m => m ≠ n), 0)

/-! ## Streaming dataset listing (`ZFSManager.get_datasets`)

Lines of `zfs list -r -t filesystem -o name,mountpoint -H` are parsed one
by one: `line.strip().split("\t")` must give exactly a name and a mount
point (otherwise the line is skipped with a warning), and entries whose
mount point is `-` (unmounted) are skipped. -/

structure ZFSDataset where
  name : String
  mount_point : String
deriving DecidableEq, Repr

/-- Python `str.strip` whitespace test for the characters involved. -/
def isWs (c : Char) : Bool :=
  c = ' ' || c = '\t' || c = '\n' || c = '\r'

def dropLeadingWs : List Char → List Char
  | [] => []
  | c :: rest => if isWs c then dropLeadingWs rest else c :: rest

/-- `line.strip()`: whitespace removed from both ends. -/
def stripChars (l : List Char) : List Char :=
  dropLeadingWs ((dropLeadingWs l.reverse).reverse)

/-- `split("\t")`. -/
def splitTab : List Char → List (List Char)
  | [] => [[]]
  | c :: rest =>
    if c = '\t' then [] :: splitTab rest
    else
      match splitTab rest with
      | [] => [[c]]
      | f :: fs => (c :: f) :: fs

/-- One iteration of the `get_datasets` loop body: unpack
`name, mount_point`, skip unmounted (`-`) and malformed lines. -/
def parseDatasetLine (line : List Char) : Option ZFSDataset :=
  match splitTab (stripChars line) with
  | [n, m] =>
    if m = ['-'] then none
    else some ⟨String.mk n, String.mk m⟩
  | _ => none

/-- `ZFSManager.get_datasets` over the streamed listing lines. -/
def get_datasets (lines : List (List Char)) : List ZFSDataset :=
  lines.filterMap parseDatasetLine

/-! ## BorgBackupRepoManager (borg_backup_manager.py)

The borg tool, the key file it writes, and `Path.unlink` are a world.
`borg info` returns exit 0 when the repository exists, exit 2 when it does
not, and any other non-zero exit is a genuine fault. -/

structure BorgWorld (σ : Type) where
  /-- exit code of `borg info` (read-only probe). -/
  infoCode : σ → Nat
  /-- `borg init --encryption=repokey-blake2`: new state and exit code. -/
  initCmd : σ → σ × Nat

/-- `BorgBackupRepoManager._repository_exists`: exit 0 means present,
exit 2 means "repository does not exist", any other exit re-raises. -/
def repository_exists (w : BorgWorld σ) (s : σ) : Except PyError Bool :=
  let code := w.infoCode s
  if code = 0 then .ok true
  else if code = 2 then .ok false
  else .error (.errorReturnCode code)

/-- `BorgBackupRepoManager.initialize_if_needed`: returns at once when the
probe finds the repository; otherwise runs `borg init` and re-probes,
raising `RuntimeError` when the repository is still not found. The middle
component counts how many times `_initialize_repository` ran. -/
def initializeIfNeeded (w : BorgWorld σ) (s : σ) :
    σ × Nat × Except PyError Unit :=
  match repository_exists w s with
  | .error e => (s, 0, .error e)
  | .ok true => (s, 0, .ok ())
  | .ok false =>
    match w.initCmd s with
    | (s1, code) =>
      if code = 0 then
        match repository_exists w s1 with
        | .error e => (s1, 1, .error e)
        | .ok false => (s1, 1, .error (.runtimeError "FATAL: Repository initialization failed. The repository was not found after the init command."))
        | .ok true => (s1, 1, .ok ())
      else (s1, 1, .error (.errorReturnCode code))

/-! ### Recovery-key export (`export_recovery_key`) -/

structure ExportWorld (σ : Type) where
  /-- `key_file_path.exists()`. -/
  fileAt : σ → Bool
  /-- `borg key export --paper REPO key_file_path`: new state, exit code. -/
  exportCmd : σ → σ × Nat
  /-- `borg list` run with `BORG_KEY_FILE` pointing at the exported file
  plus the original `BORG_PASSPHRASE` (read-only probe): exit code. -/
  listWithKey : σ → Nat
  /-- `key_file_path.unlink()`: new state, and whether it succeeded
  (`false` = `OSError`, which the Python code catches and logs). -/
  unlinkFile : σ → σ × Bool

/-- `BorgBackupRepoManager.export_recovery_key`: export the key; on export
failure delete any partial file (if one exists) and re-raise; on success
verify by listing with only the exported key plus the passphrase; on
verification failure delete the exported file and re-raise the
verification error. -/
def export_recovery_key (w : ExportWorld σ) (s : σ) : σ × Except PyError Unit :=
  match w.exportCmd s with
  | (s1, code) =>
    if code = 0 then
      let vcode := w.listWithKey s1
      if vcode = 0 then (s1, .ok ())
      else
        match w.unlinkFile s1 with
        | (s2, _) => (s2, .error (.errorReturnCode vcode))
    else
      if w.fileAt s1 then
        match w.unlinkFile s1 with
        | (s2, _) => (s2, .error (.errorReturnCode code))
      else (s1, .error (.errorReturnCode code))

/-! ### Repository integrity check (`check_repository`)

The credential bundle baked into every borg command of a manager instance
is `self.borg_env`; `check_repository` builds a strengthened local copy
(`BORG_RSH` gains `-o ServerAliveInterval=60` after the first `ssh `)
for the check command only. -/

structure BorgEnv where
  passphrase : String
  rsh : String
  repo : String
deriving DecidableEq, Repr

structure BorgManager where
  repo_path : String
  borg_env : BorgEnv
deriving DecidableEq, Repr

/-- Python `pat in s` substring test, over character lists. -/
def hasSubstr (pat : List Char) : List Char → Bool
  | [] => pat.isEmpty
  | c :: rest => pat.isPrefixOf (c :: rest) || hasSubstr pat rest

/-- Python `s.replace(pat, new, 1)`: only the first occurrence. -/
def replaceFirst (pat new : List Char) : List Char → List Char
  | [] => []
  | c :: rest =>
    if pat.isPrefixOf (c :: rest) then new ++ (c :: rest).drop pat.length
    else c :: replaceFirst pat new rest

/-- The environment `check_repository` bakes for its check command:
`BORG_RSH` rewritten with the keep-alive option when it contains `ssh `,
everything else unchanged. -/
def check_env (env : BorgEnv) : BorgEnv :=
  if hasSubstr ("ssh ".toList) env.rsh.toList then
    { env with
      rsh := String.mk (replaceFirst ("ssh ".toList)
        ("ssh -o ServerAliveInterval=60 ".toList) env.rsh.toList) }
  else env

/-- The argument list of the check command. -/
def check_args (verify_data : Bool) : List String :=
  ["check", "--verbose", "--progress"] ++ (if verify_data then ["--verify-data"] else [])

/-- The environment every other borg command of the instance uses:
`self.borg` was baked with `self.borg_env` at construction. -/
def command_env (m : BorgManager) : BorgEnv := m.borg_env

/-- `BorgBackupRepoManager.check_repository`: returns the manager as it is
after the call (the method never assigns to `self`), the environment the
check command was baked with, its arguments, and the propagated result of
the check command (`checkCode` is its exit code). -/
def check_repository (m : BorgManager) (verify_data : Bool) (checkCode : Nat) :
    BorgManager × BorgEnv × List String × Except PyError Unit :=
  (m, check_env m.borg_env, check_args verify_data,
    if checkCode = 0 then .ok () else .error (.errorReturnCode checkCode))

/-! ## BackupOrchestrator (backup_manager.py)

The pipeline drives the managers through a world of step outcomes; every
step it runs is also recorded in a trace of events, in execution order. -/

structure OrchConfig where
  repo_base_path : String
  archivePre : String
  zfs_parent_dataset : String
deriving DecidableEq, Repr

/-- `BackupOrchestrator._generate_snapshot_tag`. -/
def generate_snapshot_tag (timestamp : String) : String :=
  "auto-backup_" ++ timestamp

/-- `BackupOrchestrator._get_repo_path`: base path joined with the dataset
name, path separators replaced by underscores. -/
def get_repo_path (cfg : OrchConfig) (ds : ZFSDataset) : String :=
  cfg.repo_base_path ++ "/" ++
    String.mk (ds.name.toList.map (fun c => if c = '/' then '_' else c))

/-- `BackupOrchestrator._get_snapshot_path`:
`mount_point/.zfs/snapshot/<tag>`. -/
def get_snapshot_path (tag : String) (ds : ZFSDataset) : String :=
  ds.mount_point ++ "/.zfs/snapshot/" ++ tag

/-- `BackupOrchestrator._build_archive_name`:
`<archive_pre>_<snapshot_tag>_<timestamp>`. -/
def build_archive_name (archivePre tag timestamp : String) : String :=
  archivePre ++ "_" ++ tag ++ "_" ++ timestamp

/-- The externally visible steps of one pipeline run. -/
inductive Ev where
  | stopAll
  | createSnap (tag : String)
  | upAll
  | initRepo (repo : String)
  | createArchive (repo archive source : String)
  | pruneRepo (repo : String)
  | checkRepo (repo : String)
  | destroySnap (tag : String)
  | reportSnapshotLeft (tag : String)
deriving DecidableEq, Repr

/-- The collaborators of one pipeline run as a world of step outcomes:
docker compose stop/up, the ZFS manager's snapshot calls and dataset
enumeration, and the per-repository borg calls. `now` is the clock read
by `_build_archive_name`. -/
structure PWorld (σ : Type) where
  stopAllStep : σ → σ × Except PyError Unit
  createSnapshotStep : String → σ → σ × Except PyError String
  upAllStep : σ → σ × Except PyError Unit
  getDatasetsStep : σ → Except PyError (List ZFSDataset)
  initRepoStep : String → σ → σ × Except PyError Unit
  createArchiveStep : String → String → String → σ → σ × Except PyError Unit
  pruneRepoStep : String → σ → σ × Except PyError Unit
  checkRepoStep : String → σ → σ × Except PyError Unit
  destroySnapshotStep : String → σ → σ × Except PyError Unit
  now : σ → String

/-- `BackupOrchestrator._backup_single_dataset` (together with
`_backup_single_snapshot`): resolve the repository path, the snapshot data
path and the archive name, then initialize if needed, create the archive
and prune, failing fast. -/
def backup_single_dataset (w : PWorld σ) (cfg : OrchConfig) (tag : String)
    (ds : ZFSDataset) (s : σ) : σ × List Ev × Except PyError Unit :=
  let repoPath := get_repo_path cfg ds
  let srcPath := get_snapshot_path tag ds
  let archiveName := build_archive_name cfg.archivePre tag (w.now s)
  match w.initRepoStep repoPath s with
  | (s1, .error e) => (s1, [.initRepo repoPath], .error e)
  | (s1, .ok _) =>
    match w.createArchiveStep repoPath archiveName srcPath s1 with
    | (s2, .error e) =>
      (s2, [.initRepo repoPath, .createArchive repoPath archiveName srcPath], .error e)
    | (s2, .ok _) =>
      match w.pruneRepoStep repoPath s2 with
      | (s3, r) =>
        (s3, [.initRepo repoPath, .createArchive repoPath archiveName srcPath,
              .pruneRepo repoPath], r)

/-- The first loop of `_orchestrate_dataset_backups`: archive every
dataset in order, aborting on the first failure. -/
def backupLoop (w : PWorld σ) (cfg : OrchConfig) (tag : String) :
    List ZFSDataset → σ → σ × List Ev × Except PyError Unit
  | [], s => (s, [], .ok ())
  | ds :: rest, s =>
    match backup_single_dataset w cfg tag ds s with
    | (s1, t1, .error e) => (s1, t1, .error e)
    | (s1, t1, .ok _) =>
      match backupLoop w cfg tag rest s1 with
      | (s2, t2, r) => (s2, t1 ++ t2, r)

/-- The second loop of `_orchestrate_dataset_backups`: check every
dataset's repository in order, aborting on the first failure. -/
def checkLoop (w : PWorld σ) (cfg : OrchConfig) :
    List ZFSDataset → σ → σ × List Ev × Except PyError Unit
  | [], s => (s, [], .ok ())
  | ds :: rest, s =>
    match w.checkRepoStep (get_repo_path cfg ds) s with
    | (s1, .error e) => (s1, [.checkRepo (get_repo_path cfg ds)], .error e)
    | (s1, .ok _) =>
      match checkLoop w cfg rest s1 with
      | (s2, t2, r) => (s2, .checkRepo (get_repo_path cfg ds) :: t2, r)

/-- `BackupOrchestrator._orchestrate_dataset_backups`: enumerate the
mounted datasets (zero datasets is a `RuntimeError`), run the archive
loop, then the check loop. -/
def orchestrate_dataset_backups (w : PWorld σ) (cfg : OrchConfig)
    (tag : String) (s : σ) : σ × List Ev × Except PyError Unit :=
  match w.getDatasetsStep s with
  | .error e => (s, [], .error e)
  | .ok datasets =>
    if datasets.isEmpty then
      (s, [], .error (.runtimeError "Found 0 mounted datasets to back up."))
    else
      match backupLoop w cfg tag datasets s with
      | (s1, t1, .error e) => (s1, t1, .error e)
      | (s1, t1, .ok _) =>
        match checkLoop w cfg datasets s1 with
        | (s2, t2, r) => (s2, t1 ++ t2, r)

/-- The body of `BackupOrchestrator.backup_all` up to (but not including)
the outer `except` handler. The `Bool` is the `snapshot_created` flag at
the moment the body returns or raises: it becomes true only once
`create_snapshot` has returned (created and verified), and is reset to
false only after `destroy_snapshot` has returned. The inner
`try/finally` runs `up_all` whether or not `create_snapshot` raised; an
error raised by `up_all` itself replaces the pending one. -/
def backup_all_inner (w : PWorld σ) (cfg : OrchConfig) (tag : String)
    (s : σ) : σ × List Ev × Bool × Except PyError Unit :=
  match w.stopAllStep s with
  | (s1, .error e) => (s1, [.stopAll], false, .error e)
  | (s1, .ok _) =>
    match w.createSnapshotStep tag s1 with
    | (s2, rSnap) =>
      match w.upAllStep s2 with
      | (s3, .error e) =>
        (s3, [.stopAll, .createSnap tag, .upAll],
         (match rSnap with | .ok _ => true | .error _ => false), .error e)
      | (s3, .ok _) =>
        match rSnap with
        | .error e => (s3, [.stopAll, .createSnap tag, .upAll], false, .error e)
        | .ok _ =>
          match orchestrate_dataset_backups w cfg tag s3 with
          | (s4, t4, .error e) =>
            (s4, [.stopAll, .createSnap tag, .upAll] ++ t4, true, .error e)
          | (s4, t4, .ok _) =>
            match w.destroySnapshotStep tag s4 with
            | (s5, .error e) =>
              (s5, [.stopAll, .createSnap tag, .upAll] ++ t4 ++ [.destroySnap tag],
               true, .error e)
            | (s5, .ok _) =>
              (s5, [.stopAll, .createSnap tag, .upAll] ++ t4 ++ [.destroySnap tag],
               false, .ok ())

/-- `BackupOrchestrator.backup_all`: the body above wrapped in the outer
`except` handler, which — when `snapshot_created` is still true — reports
the retained snapshot's tag to the operator, and re-raises. -/
def backup_all (w : PWorld σ) (cfg : OrchConfig) (tag : String) (s : σ) :
    σ × List Ev × Except PyError Unit :=
  match backup_all_inner w cfg tag s with
  | (s1, t, _, .ok _) => (s1, t, .ok ())
  | (s1, t, created, .error e) =>
    (s1, t ++ (if created then [.reportSnapshotLeft tag] else []), .error e)

/-! ## A concrete end-to-end world

For the end-to-end scenario the pipeline world is instantiated with a
small state carrying the existing snapshots, the repositories (each with
its archive names in creation order) and the zfs listing; the pipeline's
snapshot calls go through the real `create_snapshot` / `destroy_snapshot`
and the repository initialization through the real `initializeIfNeeded`. -/

structure W9 where
  snapshots : List String
  repos : List (String × List String)
  listing : List (List Char)
deriving DecidableEq, Repr

def reposFind (rs : List (String × List String)) (p : String) :
    Option (List String) :=
  match rs with
  | [] => none
  | (q, ar) :: rest => if q = p then some ar else reposFind rest p

def reposAppend (rs : List (String × List String)) (p a : String) :
    List (String × List String) :=
  rs.map (fun e => if e.1 = p then (e.1, e.2 ++ [a]) else e)

/-- The zfs tool over `W9`: queries answer by membership of the snapshot
list, snapshot/destroy record and remove the name. -/
def zfsOfW9 : ZfsWorld W9 where
  queryDataset _ _ := 0
  querySnap s n := if n ∈ s.snapshots then 0 else 1
  snapshotCmd s n _ := ({ s with snapshots := n :: s.snapshots }, 0)
  destroyCmd s n _ := ({ s with snapshots := s.snapshots.filter (fun m => m ≠ n) }, 0)

/-- The borg tool bound to one repository path over `W9`: `borg info`
exits 2 until the repository has been created, `borg init` creates an
empty repository. -/
def borgOfW9 (path : String) : BorgWorld W9 where
  infoCode s := if (reposFind s.repos path).isSome then 0 else 2
  initCmd s := ({ s with repos := s.repos ++ [(path, [])] }, 0)

/-- The pipeline world of the end-to-end scenario: stop/up and prune and
check succeed without touching the tracked state, archives append to
their repository, the clock reads `T2`. -/
def pworld9 (parent : String) : PWorld W9 where
  stopAllStep s := (s, .ok ())
  createSnapshotStep tag s :=
    create_snapshot zfsOfW9 parent (some tag) none true "unused" s
  upAllStep s := (s, .ok ())
  getDatasetsStep s := .ok (get_datasets s.listing)
  initRepoStep p s :=
    match initializeIfNeeded (borgOfW9 p) s with
    | (s1, _, r) => (s1, r)
  createArchiveStep p a _ s := ({ s with repos := reposAppend s.repos p a }, .ok ())
  pruneRepoStep _ s := (s, .ok ())
  checkRepoStep _ s := (s, .ok ())
  destroySnapshotStep tag s := destroy_snapshot zfsOfW9 parent tag none true s
  now _ := "T2"

/-- The configured surface of the scenario: repository root `root`,
archive name component `pre`, parent namespace `pool/svcs`. -/
def cfg9 : OrchConfig := ⟨"root", "pre", "pool/svcs"⟩

/-- The zfs listing of the scenario: the parent namespace (no active
mount point) and the two mounted volumes `a` and `b`. -/
def w9start : W9 :=
  ⟨[], [],
   [("pool/svcs\t-").toList,
    ("pool/svcs/a\t/mnt/a").toList,
    ("pool/svcs/b\t/mnt/b").toList]⟩

/-- A well-behaved export world over a single boolean state — whether the
key file is on disk: export writes the file and exits 0, the
verification listing exits 0, unlink removes the file. -/
def expGood : ExportWorld Bool where
  fileAt b := b
  exportCmd _ := (true, 0)
  listWithKey _ := 0
  unlinkFile _ := (false, true)

instance {α β : Type} [DecidableEq α] [DecidableEq β] :
    DecidableEq (Except α β) := fun a b =>
  match a, b with
  | .ok x, .ok y =>
    if h : x = y then isTrue (by rw [h]) else
      isFalse (fun hh => h (by cases hh; rfl))
  | .error x, .error y =>
    if h : x = y then isTrue (by rw [h]) else
      isFalse (fun hh => h (by cases hh; rfl))
  | .ok _, .error _ => isFalse (fun hh => Except.noConfusion hh)
  | .error _, .ok _ => isFalse (fun hh => Except.noConfusion hh)

/-- The events `backup_single_dataset` emits for one dataset when all of
its steps succeed. -/
def volTrace (w : PWorld Unit) (cfg : OrchConfig) (tag : String)
    (ds : ZFSDataset) : List Ev :=
  [.initRepo (get_repo_path cfg ds),
   .createArchive (get_repo_path cfg ds)
     (build_archive_name cfg.archivePre tag (w.now ()))
     (get_snapshot_path tag ds),
   .pruneRepo (get_repo_path cfg ds)]

/-- All three per-dataset steps (initialize if needed, create archive,
prune) succeed for this dataset. -/
def stepsOk (w : PWorld Unit) (cfg : OrchConfig) (tag : String)
    (ds : ZFSDataset) : Prop :=
  (w.initRepoStep (get_repo_path cfg ds) ()).2 = .ok () ∧
  (w.createArchiveStep (get_repo_path cfg ds)
     (build_archive_name cfg.archivePre tag (w.now ()))
     (get_snapshot_path tag ds) ()).2 = .ok () ∧
  (w.pruneRepoStep (get_repo_path cfg ds) ()).2 = .ok ()

/-- The event shapes `_orchestrate_dataset_backups` can emit: only
per-repository work, never a service or snapshot step. -/
def loopEv : Ev → Prop
  | .initRepo _ => True
  | .createArchive _ _ _ => True
  | .pruneRepo _ => True
  | .checkRepo _ => True
  | _ => False

/-- Three mounted datasets used by the concrete pipeline worlds. -/
def dsA : ZFSDataset := ⟨"p/d1", "/m1"⟩

def dsB : ZFSDataset := ⟨"p/d2", "/m2"⟩

def dsC : ZFSDataset := ⟨"p/d3", "/m3"⟩

/-- A pipeline configuration for the concrete worlds. -/
def cfgU : OrchConfig := ⟨"root", "pre", "p"⟩

/-- A pipeline world in which every step succeeds. -/
def okWorld : PWorld Unit where
  stopAllStep _ := ((), .ok ())
  createSnapshotStep tag _ := ((), .ok ("p@" ++ tag))
  upAllStep _ := ((), .ok ())
  getDatasetsStep _ := .ok [dsA, dsB, dsC]
  initRepoStep _ _ := ((), .ok ())
  createArchiveStep _ _ _ _ := ((), .ok ())
  pruneRepoStep _ _ := ((), .ok ())
  checkRepoStep _ _ := ((), .ok ())
  destroySnapshotStep _ _ := ((), .ok ())
  now _ := "TS"

/-- `okWorld` with a fault injected into the archiving of the second
dataset's repository. -/
def failArchiveWorld : PWorld Unit :=
  { okWorld with
    createArchiveStep := fun repo _ _ _ =>
      if repo = "root/p_d2" then ((), .error (.errorReturnCode 2))
      else ((), .ok ()) }

/-- `okWorld` with a fault injected into the snapshot-creation step. -/
def failSnapWorld : PWorld Unit :=
  { okWorld with
    createSnapshotStep := fun _ _ => ((), .error (.errorReturnCode 5)) }

/-! ## Theorems -/

/-- C9: for a successful full backup run over parent namespace
`pool/svcs` containing mounted volumes `a` and `b`, exactly two
repositories are produced, at `root/pool_svcs_a` and `root/pool_svcs_b`
(the configured root plus the volume name with path separators replaced
by underscores), each containing exactly one archive named
`pre_auto-backup_T_T2`, and the snapshot `pool/svcs@auto-backup_T` no
longer exists after the run. -/
theorem backup_end_to_end_scenario :
    (backup_all (pworld9 "pool/svcs") cfg9 (generate_snapshot_tag "T") w9start).2.2 =
      .ok () ∧
    (backup_all (pworld9 "pool/svcs") cfg9 (generate_snapshot_tag "T") w9start).1.repos =
      [("root/pool_svcs_a", ["pre_auto-backup_T_T2"]),
       ("root/pool_svcs_b", ["pre_auto-backup_T_T2"])] ∧
    "pool/svcs@" ++ generate_snapshot_tag "T" ∉
      (backup_all (pworld9 "pool/svcs") cfg9 (generate_snapshot_tag "T") w9start).1.snapshots := by
  refine ⟨rfl, by decide, by decide⟩

/-- C4: for a snapshot tag that does not currently exist,
`create_snapshot` succeeds (creating then verifying the snapshot and
returning the canonical full snapshot name), and an immediately
following `create_snapshot` with the same tag raises `FileExistsError`:
snapshot creation is not idempotent. -/
theorem create_snapshot_not_idempotent (parent tag now now2 : String)
    (dsName : Option String) (recursive : Bool) (s : List String)
    (htag : tag ≠ "")
    (h : targetDataset parent dsName ++ "@" ++ tag ∉ s) :
    create_snapshot faithfulZfs parent (some tag) dsName recursive now s =
      ((targetDataset parent dsName ++ "@" ++ tag) :: s,
       .ok (targetDataset parent dsName ++ "@" ++ tag)) ∧
    create_snapshot faithfulZfs parent (some tag) dsName recursive now2
        (create_snapshot faithfulZfs parent (some tag) dsName recursive now s).1 =
      ((targetDataset parent dsName ++ "@" ++ tag) :: s,
       .error (.fileExistsError (targetDataset parent dsName ++ "@" ++ tag))) := by
  have h1 : create_snapshot faithfulZfs parent (some tag) dsName recursive now s =
      ((targetDataset parent dsName ++ "@" ++ tag) :: s,
       .ok (targetDataset parent dsName ++ "@" ++ tag)) := by
    simp [create_snapshot, effectiveTag, snapshot_exists, faithfulZfs, htag, h]
  refine ⟨h1, ?_⟩
  rw [h1]
  simp [create_snapshot, effectiveTag, snapshot_exists, faithfulZfs, htag]

/-- C4 witness: a fresh tag under `pool/svcs` is created once and the
second attempt raises `FileExistsError`. -/
theorem create_snapshot_not_idempotent_witness :
    create_snapshot faithfulZfs "pool/svcs" (some "t1") none true "N" [] =
      (["pool/svcs@t1"], .ok "pool/svcs@t1") ∧
    create_snapshot faithfulZfs "pool/svcs" (some "t1") none true "N2"
        (create_snapshot faithfulZfs "pool/svcs" (some "t1") none true "N" []).1 =
      (["pool/svcs@t1"], .error (.fileExistsError "pool/svcs@t1")) :=
  create_snapshot_not_idempotent "pool/svcs" "t1" "N" "N2" none true []
    (by decide) (by decide)

/-- C5: `destroy_snapshot` is a no-op success when the snapshot does not
exist (destruction is idempotent); when it exists it is destroyed and
its absence is re-verified, raising `RuntimeError` (the post-condition
violation) when the snapshot is still present after the destroy
command. -/
theorem destroy_snapshot_idempotent {σ : Type} (w : ZfsWorld σ)
    (parent tag : String) (dsName : Option String) (recursive : Bool) (s : σ) :
    (w.querySnap s (targetDataset parent dsName ++ "@" ++ tag) = 1 →
      destroy_snapshot w parent tag dsName recursive s = (s, .ok ())) ∧
    (w.querySnap s (targetDataset parent dsName ++ "@" ++ tag) = 0 →
      (w.destroyCmd s (targetDataset parent dsName ++ "@" ++ tag) recursive).2 = 0 →
      (w.querySnap (w.destroyCmd s (targetDataset parent dsName ++ "@" ++ tag) recursive).1
          (targetDataset parent dsName ++ "@" ++ tag) = 1 →
        destroy_snapshot w parent tag dsName recursive s =
          ((w.destroyCmd s (targetDataset parent dsName ++ "@" ++ tag) recursive).1,
           .ok ())) ∧
      (w.querySnap (w.destroyCmd s (targetDataset parent dsName ++ "@" ++ tag) recursive).1
          (targetDataset parent dsName ++ "@" ++ tag) = 0 →
        (destroy_snapshot w parent tag dsName recursive s).2 =
          .error (.runtimeError ("Verification failed! Snapshot still exists after destruction: "
            ++ (targetDataset parent dsName ++ "@" ++ tag))))) := by
  constructor
  · intro h1
    simp [destroy_snapshot, snapshot_exists, h1]
  · intro h0 hc
    rcases hdes : w.destroyCmd s (targetDataset parent dsName ++ "@" ++ tag) recursive
      with ⟨s1, c⟩
    rw [hdes] at hc
    simp only at hc
    subst hc
    constructor
    · intro habs
      simp only at habs
      simp [destroy_snapshot, snapshot_exists, h0, hdes, habs]
    · intro hstill
      simp only at hstill
      simp [destroy_snapshot, snapshot_exists, h0, hdes, hstill]

/-- C8: every existence probe returns true on exit 0 of the underlying
query, returns false on the distinguished "not found" exit code (1 for
the zfs queries, 2 for borg's metadata query) without treating it as an
error, and raises the underlying failure for any other non-zero exit. -/
theorem existence_probe_exit_codes {σ : Type} (wz : ZfsWorld σ)
    (wb : BorgWorld σ) (s : σ) (parent : String) (dsName : Option String)
    (snapName : String) (c : Nat) :
    (wz.queryDataset s (targetDataset parent dsName) = 0 →
       dataset_exists wz parent dsName s = .ok true) ∧
    (wz.queryDataset s (targetDataset parent dsName) = 1 →
       dataset_exists wz parent dsName s = .ok false) ∧
    (wz.queryDataset s (targetDataset parent dsName) = c → c ≠ 0 → c ≠ 1 →
       dataset_exists wz parent dsName s = .error (.errorReturnCode c)) ∧
    (wz.querySnap s snapName = 0 → snapshot_exists wz s snapName = .ok true) ∧
    (wz.querySnap s snapName = 1 → snapshot_exists wz s snapName = .ok false) ∧
    (wz.querySnap s snapName = c → c ≠ 0 → c ≠ 1 →
       snapshot_exists wz s snapName = .error (.errorReturnCode c)) ∧
    (wb.infoCode s = 0 → repository_exists wb s = .ok true) ∧
    (wb.infoCode s = 2 → repository_exists wb s = .ok false) ∧
    (wb.infoCode s = c → c ≠ 0 → c ≠ 2 →
       repository_exists wb s = .error (.errorReturnCode c)) := by
  refine ⟨?_, ?_, ?_, ?_, ?_, ?_, ?_, ?_, ?_⟩
  · intro h; simp [dataset_exists, h]
  · intro h; simp [dataset_exists, h]
  · intro h hn0 hn1; simp [dataset_exists, h, hn0, hn1]
  · intro h; simp [snapshot_exists, h]
  · intro h; simp [snapshot_exists, h]
  · intro h hn0 hn1; simp [snapshot_exists, h, hn0, hn1]
  · intro h; simp [repository_exists, h]
  · intro h; simp [repository_exists, h]
  · intro h hn0 hn1; simp [repository_exists, h, hn0, hn1]

/-- C6: `initializeIfNeeded` is idempotent: when the repository already
exists it returns without initializing (zero init commands); when absent
it initializes then re-probes, raising `RuntimeError` (the post-condition
violation) if the repository is still not found; calling it twice in a
row performs at most one initialization and both calls succeed. -/
theorem initializeIfNeeded_idempotent {σ : Type} (w : BorgWorld σ) (s : σ) :
    (w.infoCode s = 0 → initializeIfNeeded w s = (s, 0, .ok ())) ∧
    (w.infoCode s = 0 →
      initializeIfNeeded w (initializeIfNeeded w s).1 = (s, 0, .ok ())) ∧
    (w.infoCode s = 2 → (w.initCmd s).2 = 0 → w.infoCode (w.initCmd s).1 = 0 →
      initializeIfNeeded w s = ((w.initCmd s).1, 1, .ok ()) ∧
      initializeIfNeeded w (initializeIfNeeded w s).1 = ((w.initCmd s).1, 0, .ok ())) ∧
    (w.infoCode s = 2 → (w.initCmd s).2 = 0 → w.infoCode (w.initCmd s).1 = 2 →
      (initializeIfNeeded w s).2.2 =
        .error (.runtimeError "FATAL: Repository initialization failed. The repository was not found after the init command.")) := by
  refine ⟨?_, ?_, ?_, ?_⟩
  · intro h0
    simp [initializeIfNeeded, repository_exists, h0]
  · intro h0
    simp [initializeIfNeeded, repository_exists, h0]
  · intro h2 hc hre
    rcases hini : w.initCmd s with ⟨s1, c⟩
    rw [hini] at hc hre
    obtain rfl : c = 0 := hc
    have hre1 : w.infoCode s1 = 0 := hre
    have hfirst : initializeIfNeeded w s = (s1, 1, .ok ()) := by
      simp [initializeIfNeeded, repository_exists, h2, hini, hre1]
    refine ⟨hfirst, ?_⟩
    rw [hfirst]
    simp [initializeIfNeeded, repository_exists, hre1]
  · intro h2 hc hre
    rcases hini : w.initCmd s with ⟨s1, c⟩
    rw [hini] at hc hre
    obtain rfl : c = 0 := hc
    have hre1 : w.infoCode s1 = 2 := hre
    simp [initializeIfNeeded, repository_exists, h2, hini, hre1]

/-- C3: after `export_recovery_key` returns or raises, a key file exists
at the destination exactly when the post-export verification (listing
the repository with only the exported key file plus the passphrase)
succeeded; on verification failure the exported file is deleted and the
verification error re-raised; on export failure any partial file is
deleted before re-raising. The hypotheses say that `unlink` removes the
file without an `OSError` and that a zero-exit export leaves the file on
disk. -/
theorem export_recovery_key_verification {σ : Type} (w : ExportWorld σ) (s : σ)
    (hunlink : ∀ t : σ, (w.unlinkFile t).2 = true ∧ w.fileAt (w.unlinkFile t).1 = false)
    (hexp : ∀ t : σ, (w.exportCmd t).2 = 0 → w.fileAt (w.exportCmd t).1 = true) :
    (w.fileAt (export_recovery_key w s).1 = true ↔
       ((w.exportCmd s).2 = 0 ∧ w.listWithKey (w.exportCmd s).1 = 0)) ∧
    ((export_recovery_key w s).2 = .ok () ↔
       ((w.exportCmd s).2 = 0 ∧ w.listWithKey (w.exportCmd s).1 = 0)) ∧
    (∀ c : Nat, (w.exportCmd s).2 = 0 → w.listWithKey (w.exportCmd s).1 = c → c ≠ 0 →
       (export_recovery_key w s).2 = .error (.errorReturnCode c) ∧
       w.fileAt (export_recovery_key w s).1 = false) ∧
    (∀ c : Nat, (w.exportCmd s).2 = c → c ≠ 0 →
       (export_recovery_key w s).2 = .error (.errorReturnCode c) ∧
       w.fileAt (export_recovery_key w s).1 = false) := by
  rcases hexe : w.exportCmd s with ⟨s1, ec⟩
  have hexp1 := hexp s
  rw [hexe] at hexp1
  simp only at hexp1
  by_cases hec : ec = 0
  · subst hec
    by_cases hv : w.listWithKey s1 = 0
    · have hout : export_recovery_key w s = (s1, .ok ()) := by
        simp [export_recovery_key, hexe, hv]
      rw [hout]
      simp only
      refine ⟨?_, ?_, ?_, ?_⟩
      · simp [hexp1 rfl, hv]
      · simp [hv]
      · intro c _ hvc hc0
        exact absurd (hv ▸ hvc) (fun hh => hc0 hh.symm)
      · intro c hc hc0
        exact absurd hc.symm hc0
    · have hout : export_recovery_key w s =
          ((w.unlinkFile s1).1, .error (.errorReturnCode (w.listWithKey s1))) := by
        simp [export_recovery_key, hexe, hv]
      rw [hout]
      simp only
      refine ⟨?_, ?_, ?_, ?_⟩
      · simp [(hunlink s1).2, hv]
      · simp [hv]
      · intro c _ hvc hc0
        subst hvc
        exact ⟨rfl, (hunlink s1).2⟩
      · intro c hc hc0
        exact absurd hc.symm hc0
  · have hout : export_recovery_key w s =
        (if w.fileAt s1 then
           ((w.unlinkFile s1).1, .error (.errorReturnCode ec))
         else (s1, .error (.errorReturnCode ec))) := by
      simp [export_recovery_key, hexe, hec]
    refine ⟨?_, ?_, ?_, ?_⟩
    · rw [hout]
      by_cases hf : w.fileAt s1
      · simp [hf, (hunlink s1).2, hec]
      · simp [hf, hec, eq_false_of_ne_true hf]
    · rw [hout]
      by_cases hf : w.fileAt s1 <;> simp [hf, hec]
    · intro c hc
      exact absurd hc hec
    · intro c hc hc0
      subst hc
      rw [hout]
      by_cases hf : w.fileAt s1
      · simp [hf, (hunlink s1).2]
      · simp [hf, eq_false_of_ne_true hf]

/-- C3 witness: in a well-behaved world whose export succeeds and whose
verification listing succeeds, the key file is on disk afterward and the
call succeeds; with the state tracking just the file's existence. -/
theorem export_recovery_key_verification_witness :
    (expGood.fileAt (export_recovery_key expGood false).1 = true ↔
       ((expGood.exportCmd false).2 = 0 ∧
         expGood.listWithKey (expGood.exportCmd false).1 = 0)) ∧
    ((export_recovery_key expGood false).2 = .ok () ↔
       ((expGood.exportCmd false).2 = 0 ∧
         expGood.listWithKey (expGood.exportCmd false).1 = 0)) ∧
    (∀ c : Nat, (expGood.exportCmd false).2 = 0 →
       expGood.listWithKey (expGood.exportCmd false).1 = c → c ≠ 0 →
       (export_recovery_key expGood false).2 = .error (.errorReturnCode c) ∧
       expGood.fileAt (export_recovery_key expGood false).1 = false) ∧
    (∀ c : Nat, (expGood.exportCmd false).2 = c → c ≠ 0 →
       (export_recovery_key expGood false).2 = .error (.errorReturnCode c) ∧
       expGood.fileAt (export_recovery_key expGood false).1 = false) :=
  export_recovery_key_verification expGood false
    (fun t => by cases t <;> exact ⟨rfl, rfl⟩)
    (fun t _ => rfl)

/-- C10: `check_repository` leaves the manager's stored credential
environment unchanged — the keep-alive strengthening of `BORG_RSH` is
applied only to the local copy baked into the check command — so every
later command of the same instance still uses the original remote-shell
spec; and the strengthening inserts `-o ServerAliveInterval=60` after
the first `ssh `. -/
theorem check_repository_frame (m : BorgManager) (verify_data : Bool)
    (checkCode : Nat) :
    (check_repository m verify_data checkCode).1 = m ∧
    command_env (check_repository m verify_data checkCode).1 = command_env m ∧
    (check_repository m verify_data checkCode).2.1 = check_env m.borg_env ∧
    check_env ⟨"pw", "ssh -i /key", "repo"⟩ =
      ⟨"pw", "ssh -o ServerAliveInterval=60 -i /key", "repo"⟩ :=
  ⟨rfl, rfl, rfl, by decide⟩

/-! ### Helper lemmas for the pipeline theorems -/

theorem unit_pair_eq {α : Type} (p : Unit × α) (x : α) (h : p.2 = x) :
    p = ((), x) := by
  rcases p with ⟨u, a⟩
  cases u
  cases h
  rfl

theorem unit_triple_eq {α β : Type} (p : Unit × α × β) :
    p = ((), p.2.1, p.2.2) := by
  rcases p with ⟨u, a, b⟩
  cases u
  rfl

theorem backup_single_dataset_ok (w : PWorld Unit) (cfg : OrchConfig)
    (tag : String) (ds : ZFSDataset) (h : stepsOk w cfg tag ds) :
    backup_single_dataset w cfg tag ds () = ((), volTrace w cfg tag ds, .ok ()) := by
  obtain ⟨h1, h2, h3⟩ := h
  have e1 := unit_pair_eq _ _ h1
  have e2 := unit_pair_eq _ _ h2
  have e3 := unit_pair_eq _ _ h3
  simp [backup_single_dataset, volTrace, e1, e2, e3]

theorem backupLoop_ok (w : PWorld Unit) (cfg : OrchConfig) (tag : String)
    (l : List ZFSDataset) (h : ∀ ds ∈ l, stepsOk w cfg tag ds) :
    backupLoop w cfg tag l () = ((), l.flatMap (volTrace w cfg tag), .ok ()) := by
  induction l with
  | nil => simp [backupLoop]
  | cons ds rest ih =>
    have hds := h ds (List.mem_cons_self ds rest)
    have hrest := ih (fun d hd => h d (List.mem_cons_of_mem ds hd))
    simp [backupLoop, backup_single_dataset_ok w cfg tag ds hds, hrest]

theorem backupLoop_append (w : PWorld Unit) (cfg : OrchConfig) (tag : String)
    (l1 l2 : List ZFSDataset) (t1 : List Ev)
    (h : backupLoop w cfg tag l1 () = ((), t1, .ok ())) :
    backupLoop w cfg tag (l1 ++ l2) () =
      ((), t1 ++ (backupLoop w cfg tag l2 ()).2.1,
       (backupLoop w cfg tag l2 ()).2.2) := by
  induction l1 generalizing t1 with
  | nil =>
    have ht : t1 = [] := by
      simp [backupLoop] at h
      exact h
    subst ht
    simp only [List.nil_append]
  | cons ds rest ih =>
    rcases hb : backup_single_dataset w cfg tag ds () with ⟨u, tb, rb⟩
    cases u
    cases rb with
    | error e0 =>
      simp [backupLoop, hb] at h
    | ok u2 =>
      rcases hl : backupLoop w cfg tag rest () with ⟨u3, t2, r2⟩
      cases u3
      simp [backupLoop, hb, hl] at h
      obtain ⟨h12, hr2⟩ := h
      rw [hr2] at hl
      have := ih t2 hl
      simp [backupLoop, hb, this, ← h12, List.append_assoc]

theorem backup_single_dataset_events {σ : Type} (w : PWorld σ)
    (cfg : OrchConfig) (tag : String) (ds : ZFSDataset) (s : σ) (e : Ev)
    (he : e ∈ (backup_single_dataset w cfg tag ds s).2.1) : loopEv e := by
  rcases h1 : w.initRepoStep (get_repo_path cfg ds) s with ⟨s1, r1⟩
  cases r1 with
  | error e1 =>
    simp [backup_single_dataset, h1] at he
    subst he
    trivial
  | ok u =>
    rcases h2 : w.createArchiveStep (get_repo_path cfg ds)
        (build_archive_name cfg.archivePre tag (w.now s))
        (get_snapshot_path tag ds) s1 with ⟨s2, r2⟩
    cases r2 with
    | error e2 =>
      simp [backup_single_dataset, h1, h2] at he
      rcases he with rfl | rfl <;> trivial
    | ok u2 =>
      rcases h3 : w.pruneRepoStep (get_repo_path cfg ds) s2 with ⟨s3, r3⟩
      simp [backup_single_dataset, h1, h2, h3] at he
      rcases he with rfl | rfl | rfl <;> trivial

theorem backupLoop_events {σ : Type} (w : PWorld σ) (cfg : OrchConfig)
    (tag : String) (l : List ZFSDataset) (s : σ) (e : Ev)
    (he : e ∈ (backupLoop w cfg tag l s).2.1) : loopEv e := by
  induction l generalizing s with
  | nil => simp [backupLoop] at he
  | cons ds rest ih =>
    rcases hb : backup_single_dataset w cfg tag ds s with ⟨s1, t1, r1⟩
    cases r1 with
    | error e1 =>
      simp [backupLoop, hb] at he
      exact backup_single_dataset_events w cfg tag ds s e (by rw [hb]; exact he)
    | ok u =>
      rcases hl : backupLoop w cfg tag rest s1 with ⟨s2, t2, r2⟩
      simp [backupLoop, hb, hl] at he
      rcases he with he | he
      · exact backup_single_dataset_events w cfg tag ds s e (by rw [hb]; exact he)
      · exact ih s1 (by rw [hl]; exact he)

theorem checkLoop_events {σ : Type} (w : PWorld σ) (cfg : OrchConfig)
    (l : List ZFSDataset) (s : σ) (e : Ev)
    (he : e ∈ (checkLoop w cfg l s).2.1) : loopEv e := by
  induction l generalizing s with
  | nil => simp [checkLoop] at he
  | cons ds rest ih =>
    rcases hc : w.checkRepoStep (get_repo_path cfg ds) s with ⟨s1, r1⟩
    cases r1 with
    | error e1 =>
      simp [checkLoop, hc] at he
      subst he
      trivial
    | ok u =>
      rcases hl : checkLoop w cfg rest s1 with ⟨s2, t2, r2⟩
      simp [checkLoop, hc, hl] at he
      rcases he with rfl | he
      · trivial
      · exact ih s1 (by rw [hl]; exact he)

theorem orchestrate_events {σ : Type} (w : PWorld σ) (cfg : OrchConfig)
    (tag : String) (s : σ) (e : Ev)
    (he : e ∈ (orchestrate_dataset_backups w cfg tag s).2.1) : loopEv e := by
  rcases hg : w.getDatasetsStep s with e0 | datasets
  · simp [orchestrate_dataset_backups, hg] at he
  · by_cases hemp : datasets.isEmpty
    · simp [orchestrate_dataset_backups, hg, hemp] at he
    · rcases hb : backupLoop w cfg tag datasets s with ⟨s1, t1, r1⟩
      cases r1 with
      | error e1 =>
        simp [orchestrate_dataset_backups, hg, hemp, hb] at he
        exact backupLoop_events w cfg tag datasets s e (by rw [hb]; exact he)
      | ok u =>
        rcases hl : checkLoop w cfg datasets s1 with ⟨s2, t2, r2⟩
        simp [orchestrate_dataset_backups, hg, hemp, hb, hl] at he
        rcases he with he | he
        · exact backupLoop_events w cfg tag datasets s e (by rw [hb]; exact he)
        · exact checkLoop_events w cfg datasets s1 e (by rw [hl]; exact he)

theorem orchestrate_count_eq_zero {σ : Type} (w : PWorld σ) (cfg : OrchConfig)
    (tag : String) (s : σ) (e : Ev) (hne : ¬ loopEv e) :
    (orchestrate_dataset_backups w cfg tag s).2.1.count e = 0 :=
  List.count_eq_zero.mpr (fun hm => hne (orchestrate_events w cfg tag s e hm))

theorem orchestrate_not_mem {σ : Type} (w : PWorld σ) (cfg : OrchConfig)
    (tag : String) (s : σ) (e : Ev) (hne : ¬ loopEv e) :
    e ∉ (orchestrate_dataset_backups w cfg tag s).2.1 :=
  fun hm => hne (orchestrate_events w cfg tag s e hm)

/-- C2: for every run in which the services were stopped, the
service-restart step (`up_all`) executes exactly once, whether the
snapshot-creation step succeeds or raises; and when snapshot creation
fails while the restart succeeds, the snapshot-creation error is the one
the pipeline propagates — so the restart has executed before the error
reaches the caller. -/
theorem restart_runs_exactly_once (w : PWorld Unit) (cfg : OrchConfig)
    (tag : String) (hstop : (w.stopAllStep ()).2 = .ok ()) :
    (backup_all w cfg tag ()).2.1.count Ev.upAll = 1 ∧
    (∀ e : PyError, (w.createSnapshotStep tag ()).2 = .error e →
      (w.upAllStep ()).2 = .ok () →
      (backup_all w cfg tag ()).2.2 = .error e) := by
  have hst := unit_pair_eq _ _ hstop
  rcases hsn : w.createSnapshotStep tag () with ⟨u1, rs⟩
  cases u1
  rcases hu : w.upAllStep () with ⟨u2, ru⟩
  cases u2
  cases ru with
  | error e0 =>
    cases rs with
    | error e1 =>
      have hb : backup_all w cfg tag () =
          ((), [Ev.stopAll, Ev.createSnap tag, Ev.upAll], .error e0) := by
        simp [backup_all, backup_all_inner, hst, hsn, hu]
      refine ⟨?_, ?_⟩
      · rw [hb]
        simp [List.count_cons]
      · intro e he hup
        simp at hup
    | ok name =>
      have hb : backup_all w cfg tag () =
          ((), [Ev.stopAll, Ev.createSnap tag, Ev.upAll,
                Ev.reportSnapshotLeft tag], .error e0) := by
        simp [backup_all, backup_all_inner, hst, hsn, hu]
      refine ⟨?_, ?_⟩
      · rw [hb]
        simp [List.count_cons]
      · intro e he hup
        simp at hup
  | ok u3 =>
    cases rs with
    | error e1 =>
      have hb : backup_all w cfg tag () =
          ((), [Ev.stopAll, Ev.createSnap tag, Ev.upAll], .error e1) := by
        simp [backup_all, backup_all_inner, hst, hsn, hu]
      refine ⟨?_, ?_⟩
      · rw [hb]
        simp [List.count_cons]
      · intro e he _
        simp at he
        subst he
        simp [hb]
    | ok name =>
      rcases ho : orchestrate_dataset_backups w cfg tag () with ⟨u4, t4, r4⟩
      cases u4
      have ht4 : t4.count Ev.upAll = 0 := by
        have hz := orchestrate_count_eq_zero w cfg tag () Ev.upAll (fun hh => hh)
        rw [ho] at hz
        exact hz
      cases r4 with
      | error e2 =>
        have hb : backup_all w cfg tag () =
            ((), ([Ev.stopAll, Ev.createSnap tag, Ev.upAll] ++ t4) ++
              [Ev.reportSnapshotLeft tag], .error e2) := by
          simp [backup_all, backup_all_inner, hst, hsn, hu, ho]
        refine ⟨?_, ?_⟩
        · rw [hb]
          simp [List.count_append, List.count_cons, ht4]
        · intro e he _
          simp at he
      | ok u5 =>
        rcases hd : w.destroySnapshotStep tag () with ⟨u6, rd⟩
        cases u6
        cases rd with
        | error e3 =>
          have hb : backup_all w cfg tag () =
              ((), ([Ev.stopAll, Ev.createSnap tag, Ev.upAll] ++ t4 ++
                [Ev.destroySnap tag]) ++ [Ev.reportSnapshotLeft tag], .error e3) := by
            simp [backup_all, backup_all_inner, hst, hsn, hu, ho, hd]
          refine ⟨?_, ?_⟩
          · rw [hb]
            simp [List.count_append, List.count_cons, ht4]
          · intro e he _
            simp at he
        | ok u7 =>
          have hb : backup_all w cfg tag () =
              ((), [Ev.stopAll, Ev.createSnap tag, Ev.upAll] ++ t4 ++
                [Ev.destroySnap tag], .ok ()) := by
            simp [backup_all, backup_all_inner, hst, hsn, hu, ho, hd]
          refine ⟨?_, ?_⟩
          · rw [hb]
            simp [List.count_append, List.count_cons, ht4]
          · intro e he _
            simp at he

/-- C2 witness: with a fault injected into the snapshot-creation step,
the restart still runs exactly once and the injected error is the one
the run propagates. -/
theorem restart_runs_exactly_once_witness :
    (backup_all failSnapWorld cfgU "t" ()).2.1.count Ev.upAll = 1 ∧
    (∀ e : PyError, (failSnapWorld.createSnapshotStep "t" ()).2 = .error e →
      (failSnapWorld.upAllStep ()).2 = .ok () →
      (backup_all failSnapWorld cfgU "t" ()).2.2 = .error e) :=
  restart_runs_exactly_once failSnapWorld cfgU "t" rfl

/-- C1: once the recursive run snapshot has been created and verified,
the snapshot's destroy step is invoked at most once, it is invoked
exactly once when the run succeeds, it is invoked only when the archive
loop and the check loop both succeeded (with services restarted), and on
any failing run the snapshot tag is reported to the operator, the
exception is re-raised, and the snapshot is not destroyed (either the
destroy step was never invoked, or the failure is the destroy step's
own — whose precondition was every volume succeeding). -/
theorem snapshot_destroyed_only_on_success (w : PWorld Unit) (cfg : OrchConfig)
    (tag name : String)
    (hstop : (w.stopAllStep ()).2 = .ok ())
    (hsnap : (w.createSnapshotStep tag ()).2 = .ok name) :
    (backup_all w cfg tag ()).2.1.count (Ev.destroySnap tag) ≤ 1 ∧
    ((backup_all w cfg tag ()).2.2 = .ok () →
      (backup_all w cfg tag ()).2.1.count (Ev.destroySnap tag) = 1) ∧
    (∀ e : PyError, (backup_all w cfg tag ()).2.2 = .error e →
      Ev.reportSnapshotLeft tag ∈ (backup_all w cfg tag ()).2.1) ∧
    (∀ e : PyError, (backup_all w cfg tag ()).2.2 = .error e →
      (w.destroySnapshotStep tag ()).2 = .error e ∨
      Ev.destroySnap tag ∉ (backup_all w cfg tag ()).2.1) ∧
    (Ev.destroySnap tag ∈ (backup_all w cfg tag ()).2.1 →
      (w.upAllStep ()).2 = .ok () ∧
      (orchestrate_dataset_backups w cfg tag ()).2.2 = .ok ()) := by
  have hst := unit_pair_eq _ _ hstop
  have hsn := unit_pair_eq _ _ hsnap
  rcases hu : w.upAllStep () with ⟨u2, ru⟩
  cases u2
  cases ru with
  | error e0 =>
    have hb : backup_all w cfg tag () =
        ((), [Ev.stopAll, Ev.createSnap tag, Ev.upAll,
              Ev.reportSnapshotLeft tag], .error e0) := by
      simp [backup_all, backup_all_inner, hst, hsn, hu]
    rw [hb]
    refine ⟨?_, ?_, ?_, ?_, ?_⟩
    · simp [List.count_cons]
    · intro hok
      simp at hok
    · intro e he
      simp
    · intro e he
      right
      simp
    · intro hm
      simp at hm
  | ok u3 =>
    rcases ho : orchestrate_dataset_backups w cfg tag () with ⟨u4, t4, r4⟩
    cases u4
    have ht4 : t4.count (Ev.destroySnap tag) = 0 := by
      have hz := orchestrate_count_eq_zero w cfg tag () (Ev.destroySnap tag)
        (fun hh => hh)
      rw [ho] at hz
      exact hz
    have ht4m : Ev.destroySnap tag ∉ t4 := by
      have hz := orchestrate_not_mem w cfg tag () (Ev.destroySnap tag)
        (fun hh => hh)
      rw [ho] at hz
      exact hz
    cases r4 with
    | error e2 =>
      have hb : backup_all w cfg tag () =
          ((), ([Ev.stopAll, Ev.createSnap tag, Ev.upAll] ++ t4) ++
            [Ev.reportSnapshotLeft tag], .error e2) := by
        simp [backup_all, backup_all_inner, hst, hsn, hu, ho]
      rw [hb]
      refine ⟨?_, ?_, ?_, ?_, ?_⟩
      · simp [List.count_append, List.count_cons, ht4]
      · intro hok
        simp at hok
      · intro e he
        simp
      · intro e he
        right
        simp [ht4m]
      · intro hm
        simp [ht4m] at hm
    | ok u5 =>
      rcases hd : w.destroySnapshotStep tag () with ⟨u6, rd⟩
      cases u6
      cases rd with
      | error e3 =>
        have hb : backup_all w cfg tag () =
            ((), ([Ev.stopAll, Ev.createSnap tag, Ev.upAll] ++ t4 ++
              [Ev.destroySnap tag]) ++ [Ev.reportSnapshotLeft tag], .error e3) := by
          simp [backup_all, backup_all_inner, hst, hsn, hu, ho, hd]
        rw [hb]
        refine ⟨?_, ?_, ?_, ?_, ?_⟩
        · simp [List.count_append, List.count_cons, ht4]
        · intro hok
          simp at hok
        · intro e he
          simp
        · intro e he
          left
          simp at he
          subst he
          rfl
        · intro hm
          exact ⟨rfl, rfl⟩
      | ok u7 =>
        have hb : backup_all w cfg tag () =
            ((), [Ev.stopAll, Ev.createSnap tag, Ev.upAll] ++ t4 ++
              [Ev.destroySnap tag], .ok ()) := by
          simp [backup_all, backup_all_inner, hst, hsn, hu, ho, hd]
        rw [hb]
        refine ⟨?_, ?_, ?_, ?_, ?_⟩
        · simp [List.count_append, List.count_cons, ht4]
        · intro hok
          simp [List.count_append, List.count_cons, ht4]
        · intro e he
          simp at he
        · intro e he
          simp at he
        · intro hm
          exact ⟨rfl, rfl⟩

/-- C1 witness: in the all-success world the run succeeds, the destroy
step runs exactly once, and every failure-path conclusion holds
vacuously. -/
theorem snapshot_destroyed_only_on_success_witness :
    (backup_all okWorld cfgU "t" ()).2.1.count (Ev.destroySnap "t") ≤ 1 ∧
    ((backup_all okWorld cfgU "t" ()).2.2 = .ok () →
      (backup_all okWorld cfgU "t" ()).2.1.count (Ev.destroySnap "t") = 1) ∧
    (∀ e : PyError, (backup_all okWorld cfgU "t" ()).2.2 = .error e →
      Ev.reportSnapshotLeft "t" ∈ (backup_all okWorld cfgU "t" ()).2.1) ∧
    (∀ e : PyError, (backup_all okWorld cfgU "t" ()).2.2 = .error e →
      (okWorld.destroySnapshotStep "t" ()).2 = .error e ∨
      Ev.destroySnap "t" ∉ (backup_all okWorld cfgU "t" ()).2.1) ∧
    (Ev.destroySnap "t" ∈ (backup_all okWorld cfgU "t" ()).2.1 →
      (okWorld.upAllStep ()).2 = .ok () ∧
      (orchestrate_dataset_backups okWorld cfgU "t" ()).2.2 = .ok ()) :=
  snapshot_destroyed_only_on_success okWorld cfgU "t" "p@t" rfl rfl

/-- C7: when archiving the dataset after `pre` fails at its archive step
(while every dataset of `pre` archived, the snapshot step and the
restart step succeeded), the whole run reduces to exactly the consistency
bracket, the per-volume work of `pre`, the failing dataset's init and
archive attempts, and the snapshot-left report: no work at all is
attempted for any later dataset, every earlier dataset's archive was
created (and nothing in the run removes an archive), the snapshot is not
destroyed, and the pipeline raises the failure. -/
theorem archive_loop_fail_fast (w : PWorld Unit) (cfg : OrchConfig)
    (tag name : String) (pre rest : List ZFSDataset) (dk : ZFSDataset)
    (e : PyError)
    (hstop : (w.stopAllStep ()).2 = .ok ())
    (hsnap : (w.createSnapshotStep tag ()).2 = .ok name)
    (hup : (w.upAllStep ()).2 = .ok ())
    (hlist : w.getDatasetsStep () = .ok (pre ++ dk :: rest))
    (hpre : ∀ ds ∈ pre, stepsOk w cfg tag ds)
    (hkinit : (w.initRepoStep (get_repo_path cfg dk) ()).2 = .ok ())
    (hkarch : (w.createArchiveStep (get_repo_path cfg dk)
        (build_archive_name cfg.archivePre tag (w.now ()))
        (get_snapshot_path tag dk) ()).2 = .error e) :
    backup_all w cfg tag () =
      ((), [Ev.stopAll, Ev.createSnap tag, Ev.upAll] ++
        pre.flatMap (volTrace w cfg tag) ++
        [Ev.initRepo (get_repo_path cfg dk),
         Ev.createArchive (get_repo_path cfg dk)
           (build_archive_name cfg.archivePre tag (w.now ()))
           (get_snapshot_path tag dk)] ++
        [Ev.reportSnapshotLeft tag], .error e) ∧
    (∀ ds ∈ pre,
      Ev.createArchive (get_repo_path cfg ds)
        (build_archive_name cfg.archivePre tag (w.now ()))
        (get_snapshot_path tag ds) ∈ (backup_all w cfg tag ()).2.1) ∧
    Ev.destroySnap tag ∉ (backup_all w cfg tag ()).2.1 := by
  have hst := unit_pair_eq _ _ hstop
  have hsn := unit_pair_eq _ _ hsnap
  have hupp := unit_pair_eq _ _ hup
  have hki := unit_pair_eq _ _ hkinit
  have hka := unit_pair_eq _ _ hkarch
  have hsingle : backup_single_dataset w cfg tag dk () =
      ((), [Ev.initRepo (get_repo_path cfg dk),
            Ev.createArchive (get_repo_path cfg dk)
              (build_archive_name cfg.archivePre tag (w.now ()))
              (get_snapshot_path tag dk)], .error e) := by
    simp [backup_single_dataset, hki, hka]
  have hloopTail : backupLoop w cfg tag (dk :: rest) () =
      ((), [Ev.initRepo (get_repo_path cfg dk),
            Ev.createArchive (get_repo_path cfg dk)
              (build_archive_name cfg.archivePre tag (w.now ()))
              (get_snapshot_path tag dk)], .error e) := by
    simp [backupLoop, hsingle]
  have hloopPre := backupLoop_ok w cfg tag pre hpre
  have hloop := backupLoop_append w cfg tag pre (dk :: rest)
    (pre.flatMap (volTrace w cfg tag)) hloopPre
  rw [hloopTail] at hloop
  have hemp : (pre ++ dk :: rest).isEmpty = false := by
    cases pre <;> simp
  have horch : orchestrate_dataset_backups w cfg tag () =
      ((), pre.flatMap (volTrace w cfg tag) ++
        [Ev.initRepo (get_repo_path cfg dk),
         Ev.createArchive (get_repo_path cfg dk)
           (build_archive_name cfg.archivePre tag (w.now ()))
           (get_snapshot_path tag dk)], .error e) := by
    simp [orchestrate_dataset_backups, hlist, hemp, hloop]
  have hb : backup_all w cfg tag () =
      ((), [Ev.stopAll, Ev.createSnap tag, Ev.upAll] ++
        pre.flatMap (volTrace w cfg tag) ++
        [Ev.initRepo (get_repo_path cfg dk),
         Ev.createArchive (get_repo_path cfg dk)
           (build_archive_name cfg.archivePre tag (w.now ()))
           (get_snapshot_path tag dk)] ++
        [Ev.reportSnapshotLeft tag], .error e) := by
    simp [backup_all, backup_all_inner, hst, hsn, hupp, horch, List.append_assoc]
  refine ⟨hb, ?_, ?_⟩
  · intro ds hds
    rw [hb]
    simp only [List.mem_append]
    left
    left
    right
    simp only [List.mem_flatMap]
    exact ⟨ds, hds, by simp [volTrace]⟩
  · rw [hb]
    intro hm
    simp only [List.mem_append] at hm
    rcases hm with ((hm | hm) | hm) | hm
    · simp at hm
    · simp only [List.mem_flatMap] at hm
      obtain ⟨ds, _, hmem⟩ := hm
      simp [volTrace] at hmem
    · simp at hm
    · simp at hm

/-- C7 witness: with three datasets and a fault injected into the second
dataset's archive step, the run's trace is exactly the consistency
bracket, dataset one's full per-volume work, dataset two's init and
failing archive attempt, and the snapshot-left report. -/
theorem archive_loop_fail_fast_witness :
    backup_all failArchiveWorld cfgU "t" () =
      ((), [Ev.stopAll, Ev.createSnap "t", Ev.upAll] ++
        [dsA].flatMap (volTrace failArchiveWorld cfgU "t") ++
        [Ev.initRepo (get_repo_path cfgU dsB),
         Ev.createArchive (get_repo_path cfgU dsB)
           (build_archive_name cfgU.archivePre "t" (failArchiveWorld.now ()))
           (get_snapshot_path "t" dsB)] ++
        [Ev.reportSnapshotLeft "t"], .error (.errorReturnCode 2)) ∧
    (∀ ds ∈ [dsA],
      Ev.createArchive (get_repo_path cfgU ds)
        (build_archive_name cfgU.archivePre "t" (failArchiveWorld.now ()))
        (get_snapshot_path "t" ds) ∈ (backup_all failArchiveWorld cfgU "t" ()).2.1) ∧
    Ev.destroySnap "t" ∉ (backup_all failArchiveWorld cfgU "t" ()).2.1 :=
  archive_loop_fail_fast failArchiveWorld cfgU "t" "p@t" [dsA] [dsC] dsB
    (.errorReturnCode 2) rfl rfl rfl rfl
    (by
      intro ds hds
      simp only [List.mem_singleton] at hds
      subst hds
      exact ⟨by decide, by decide, by decide⟩)
    (by decide) (by decide)

end HomelabBackup
